import Mathlib

set_option maxRecDepth 40000

/-!
Verification development for the `codeAssistent` terminal coding assistant
(`agent.py`).  The Python source is shallowly embedded: pure fragments become
Lean functions over `String`/`List`, effectful fragments (subprocess runs,
LLM calls, tool invocations, the interactive driver loop) become functions
parameterised by explicit outcome oracles, with Python exceptions modelled by
`Except`.  String primitives (`str.lower`, `str.strip`, `in`, `startswith`,
`endswith`, `split`) are re-implemented over `List Char` at ASCII scope,
matching Python semantics on the ASCII inputs that the properties concern.
-/

/-! ## Python string primitives -/

/-- Python `\s` / `str.strip` whitespace set (ASCII scope):
space, tab, newline, carriage return, vertical tab, form feed. -/
def pyIsSpace (c : Char) : Bool :=
  c = ' ' || c = '\t' || c = '\n' || c = '\x0d' || c = '\x0b' || c = '\x0c'

/-- ASCII case folding of one character, as Python `str.lower` acts on ASCII. -/
def asciiLower (c : Char) : Char :=
  if 'A' ≤ c && c ≤ 'Z' then Char.ofNat (c.toNat + 32) else c

/-- Python `s.lower()` (ASCII scope). -/
def pyLower (s : String) : String := ⟨s.data.map asciiLower⟩

/-- Python `s.strip()` (ASCII whitespace scope). -/
def pyStrip (s : String) : String :=
  ⟨((s.data.dropWhile pyIsSpace).reverse.dropWhile pyIsSpace).reverse⟩

/-- Python `s.isdigit()` (ASCII scope): non-empty and all decimal digits. -/
def isDigitStr (s : String) : Bool := !s.data.isEmpty && s.data.all Char.isDigit

/-- `listIsPfx pat l` — `pat` is a prefix of `l` (character lists). -/
def listIsPfx : List Char → List Char → Bool
  | [], _ => true
  | _ :: _, [] => false
  | a :: as, b :: bs => a = b && listIsPfx as bs

/-- `occursIn pat l` — `pat` occurs as a contiguous sublist of `l`. -/
def occursIn (pat : List Char) : List Char → Bool
  | [] => listIsPfx pat []
  | c :: rest => listIsPfx pat (c :: rest) || occursIn pat rest

/-- Python `pat in s` substring test. -/
def containsSub (s pat : String) : Bool := occursIn pat.data s.data

/-- Python `s.endswith(suffix)`. -/
def strEndsWith (s suffix : String) : Bool :=
  listIsPfx suffix.data.reverse s.data.reverse

/-- Python `s.startswith(pat)`. -/
def strStartsWith (s pat : String) : Bool := listIsPfx pat.data s.data

/-- Python `s[n:]`. -/
def pyDrop (s : String) (n : Nat) : String := ⟨s.data.drop n⟩

/-- Split a character list at every occurrence of one separator character
(Python `str.split(sep)` for a single-character separator). -/
def splitOnChar (sep : Char) : List Char → List (List Char)
  | [] => [[]]
  | c :: rest =>
    if c = sep then [] :: splitOnChar sep rest
    else
      match splitOnChar sep rest with
      | g :: gs => (c :: g) :: gs
      | [] => [[c]]

/-- Python `text.split('\n')`. -/
def splitLines (s : String) : List String := (splitOnChar '\n' s.data).map String.mk

/-- Split a character list at the first occurrence of `sep`: the part
before it and the part after it, or `none` when `sep` does not occur. -/
def breakAtFirst (sep : List Char) : List Char → Option (List Char × List Char)
  | [] => if listIsPfx sep [] then some ([], []) else none
  | c :: rest =>
    if listIsPfx sep (c :: rest) then some ([], (c :: rest).drop sep.length)
    else
      match breakAtFirst sep rest with
      | some (pre, post) => some (c :: pre, post)
      | none => none

/-- Fuelled multi-character split; with fuel `l.length` it realises Python
`str.split(sep)` for a non-empty `sep` (the number of separator occurrences
is at most `l.length`, so the fuel bound is never reached). -/
def pySplitList (sep : List Char) : Nat → List Char → List (List Char)
  | 0, l => [l]
  | fuel + 1, l =>
    match breakAtFirst sep l with
    | some (pre, post) => pre :: pySplitList sep fuel post
    | none => [l]

/-- Python `s.split(sep)` for non-empty `sep`. -/
def pySplit (s sep : String) : List String :=
  (pySplitList sep.data s.data.length s.data).map String.mk

/-- Python `os.path.join(a, b)` for a relative `b` (posix flavour). -/
def joinPath (a b : String) : String :=
  if strEndsWith a "/" then a ++ b else a ++ "/" ++ b

/-! ## Data model: messages and tool calls (`agent.py` message types) -/

/-- A tool-call argument mapping (Python dict of JSON arguments, modelled as
an association list of rendered values). -/
abbrev ToolArgs := List (String × String)

/-- A pending tool call attached to an assistant message
(`tool_call["id"]`, `tool_call["name"]`, `tool_call["args"]`,
`agent.py` lines 406-408). -/
structure ToolCall where
  id : String
  name : String
  args : ToolArgs
deriving DecidableEq, Repr

/-- Conversation messages: `SystemMessage`, `HumanMessage`, `AIMessage`
(content plus pending tool calls) and `ToolMessage` (content plus the
`tool_call_id` it answers). -/
inductive Message where
  | system (content : String)
  | human (content : String)
  | ai (content : String) (toolCalls : List ToolCall)
  | tool (content : String) (toolCallId : String)
deriving DecidableEq, Repr

/-- The `.content` attribute, defined on every message type. -/
def msgContent : Message → String
  | .system c => c
  | .human c => c
  | .ai c _ => c
  | .tool c _ => c

/-- The call identifier of a tool-result message, absent on other roles. -/
def msgToolCallId : Message → Option String
  | .tool _ i => some i
  | _ => none

/-! ## Tool registry and `tool_use` (`agent.py` lines 395-466) -/

/-- A registered tool: a name and an invocation function.  `Except.error e`
models the tool raising an exception whose `str` is `e`; `Except.ok r`
models a normal return (results are rendered with `str(...)` by the caller,
so they are modelled as strings directly).  The source invokes MCP tools
with `await tool.ainvoke(...)` and the rest with `tool.invoke(...)`
(lines 425-428); both are invocations that either return or raise, so one
invocation function covers both subsets. -/
structure RegisteredTool where
  name : String
  invokeFn : ToolArgs → Except String String

/-- `next((t for t in self.tools if t.name == tool_name), None)`
(line 415): first registered tool with a matching name. -/
def findTool (tools : List RegisteredTool) (toolName : String) : Option RegisteredTool :=
  tools.find? (fun t => t.name == toolName)

/-- One iteration of the `for tool_call in tool_calls` loop
(lines 406-464).  Returns the produced `ToolMessage` together with the list
of tool names actually invoked during this iteration (empty in the
not-found branch, where no invocation happens; a singleton otherwise,
whether the invocation returns or raises). -/
def execToolCall (tools : List RegisteredTool) (tc : ToolCall) : Message × List String :=
  match findTool tools tc.name with
  | some t =>
    match t.invokeFn tc.args with
    | .ok r => (Message.tool r tc.id, [tc.name])
    | .error e => (Message.tool ("Tool error: " ++ e) tc.id, [tc.name])
  | none => (Message.tool ("Tool " ++ tc.name ++ " not found") tc.id, [])

/-- The `tool_use` node (lines 395-466): the list of tool-result messages
appended for the pending tool calls of the last assistant message. -/
def tool_use (tools : List RegisteredTool) (toolCalls : List ToolCall) : List Message :=
  toolCalls.map (fun tc => (execToolCall tools tc).1)

/-! ## `model_response` message preparation (`agent.py` lines 352-380) -/

/-- The fixed system message installed on every invocation (line 361). -/
def systemMessage : Message :=
  Message.system "You MUST call tools. For web search: use search_web(query). For docs: use search_langchain_docs, search_langgraph_docs, search_mcp_docs. For GitHub: use push_folder or quick_push_file. CALL TOOLS DIRECTLY."

/-- `if len(messages) > 10: messages = messages[-10:]` (lines 357-358). -/
def trimMessages (msgs : List Message) : List Message :=
  if msgs.length > 10 then msgs.drop (msgs.length - 10) else msgs

/-- Lines 363-370: prepend the system message when the log has exactly one
entry; otherwise replace the head when it is a system message, else prepend.
(The source indexes `messages[0]`, so an empty log would raise; the
controller never produces one — the empty case here is a harmless default.) -/
def insertSystem (msgs : List Message) : List Message :=
  if msgs.length = 1 then systemMessage :: msgs
  else
    match msgs with
    | Message.system _ :: rest => systemMessage :: rest
    | _ => systemMessage :: msgs

/-- The repository-publishing keyword set (line 376). -/
def pushKeywords : List String := ["push", "upload", "github", "repo"]

/-- `any(word in last_msg.lower() for word in [...])` (line 376). -/
def kwCheck (content : String) : Bool :=
  pushKeywords.any (fun w => containsSub (pyLower content) w)

/-- The directive appended when a keyword matches (line 378). -/
def directive : String :=
  "\n\n[SYSTEM: You MUST call the appropriate tool NOW. Do not respond with text.]"

/-- Lines 375-378: read the content of `messages[-1]` (whatever its role);
if it contains a publishing keyword, replace `messages[-1]` by a
`HumanMessage` with the directive appended.  (`hasattr(..., 'content')` is
true for every message type, so the `else ""` branch is dead.) -/
def forceToolDirective (msgs : List Message) : List Message :=
  match msgs.getLast? with
  | none => msgs
  | some m =>
    if kwCheck (msgContent m) then
      msgs.dropLast ++ [Message.human (msgContent m ++ directive)]
    else msgs

/-- The full message preparation performed by `model_response` before
`self.llm_with_tools.invoke(messages)` (lines 352-380). -/
def prepareMessages (msgs : List Message) : List Message :=
  forceToolDirective (insertSystem (trimMessages msgs))

/-! ## Numbered-option formatter (`agent.py` lines 299-350) -/

/-- The characters of the bullet character class in the source regex
`^(\s*)[...\-\*]\s+(.+)$` (line 330).  The source file literally contains
U+201A, U+00C4, U+00A2 at this position (the UTF-8 bytes of `•` re-decoded
through Mac-Roman), together with escaped `-` and `*`; the intended bullet
`•` (U+2022) is NOT in the class. -/
def bulletChars : List Char := ['‚', 'Ä', '¢', '-', '*']

/-- `re.match(r'^(\s*)[...]\s+(.+)$', line)` (line 330): on success returns
the two capture groups (indent, content).  Group 1 is the maximal leading
whitespace run (the bullet characters are not whitespace, so `\s*` cannot
backtrack).  After the bullet, greedy `\s+` takes the maximal whitespace
run that still leaves at least one character for `(.+)`; hence when the
remainder is entirely whitespace of length `≥ 2`, the content is its last
character. -/
def matchBullet (line : String) : Option (String × String) :=
  let l := line.data
  let indent := l.takeWhile pyIsSpace
  match l.dropWhile pyIsSpace with
  | [] => none
  | b :: rest =>
    if bulletChars.contains b then
      let ws := rest.takeWhile pyIsSpace
      let t := rest.dropWhile pyIsSpace
      if ws.isEmpty then none
      else if !t.isEmpty then some (⟨indent⟩, ⟨t⟩)
      else
        match ws.getLast? with
        | some c => if 2 ≤ ws.length then some (⟨indent⟩, ⟨[c]⟩) else none
        | none => none
    else none

/-- The `for line in lines` loop of `_format_with_numbers`
(lines 325-342): rewrites bullet lines as numbered lines starting from the
running counter `n`, and accumulates the `last_options` entries
`str(n) ↦ content` in encounter order. -/
def formatLines : List String → Nat → List String × List (String × String)
  | [], _ => ([], [])
  | line :: rest, n =>
    match matchBullet line with
    | some (indent, content) =>
      let r := formatLines rest (n + 1)
      ((indent ++ "**" ++ toString n ++ ".** " ++ content) :: r.1,
       (toString n, content) :: r.2)
    | none =>
      let r := formatLines rest n
      (line :: r.1, r.2)

/-- `_format_with_numbers` (lines 299-350) on string content: resets the
options map, renumbers bullet lines with the counter starting at 1, joins
the lines back, and appends the tip line when any option was recorded.
Returns the formatted text together with the new `last_options` map.
(The content-block-list branch of the source, lines 304-318, flattens
non-string content to a string first; string content is modelled directly.) -/
def formatWithNumbers (text : String) : String × List (String × String) :=
  let r := formatLines (splitLines text) 1
  let result := String.intercalate "\n" r.1
  if r.2.isEmpty then (result, r.2)
  else
    (result ++ "\n\n*Tip: Type a number (1-" ++ toString r.2.length ++
      ") to select an option*", r.2)

/-- The `last_options` update performed when `model_response` displays a
response (lines 383-385): `_format_with_numbers` runs — rebuilding the map
from empty — exactly when `response.content` is truthy (non-empty). -/
def emitResponse (opts : List (String × String)) (content : String) :
    List (String × String) :=
  if content = "" then opts else (formatWithNumbers content).2

/-- Lines 519-522 of `run`: when the stripped input is a digit string
present in `last_options`, the mapped option text is substituted for the
user input.  Returns the substituted text together with the resulting
`last_options` map; the source does not modify `self.last_options` here,
so the returned map is the input map. -/
def consumeOption (opts : List (String × String)) (input : String) :
    Option (String × List (String × String)) :=
  let k := pyStrip input
  if isDigitStr k then
    match opts.lookup k with
    | some v => some (v, opts)
    | none => none
  else none

/-- The same substitution folded into the driver's input flow: the text the
rest of the iteration runs on (lines 519-522 fall through rather than
`continue`). -/
def resolveInput (opts : List (String × String)) (input : String) : String :=
  match consumeOption opts input with
  | some (v, _) => v
  | none => input

/-- The initial `last_options` map installed by `_display_quick_start`
(lines 666-672). -/
def quickStartOptions : List (String × String) :=
  [("1", "List all files in current directory"),
   ("2", "Show available tools"),
   ("3", "Scan entire project"),
   ("4", "Read the README.md file"),
   ("5", "Show advanced help")]

/-! ## `run_code` (`agent.py` lines 194-209) -/

/-- Outcome of the attempted `subprocess.run(['python', file_path], ...)`:
normal completion with captured streams and return code, the 10-second
timeout (`subprocess.TimeoutExpired`), or any other exception with its
`str`. -/
inductive SubprocOutcome where
  | completed (stdout stderr : String) (returncode : Int)
  | timedOut
  | raised (msg : String)
deriving DecidableEq, Repr

/-- `run_code` (lines 194-209), parameterised by the subprocess outcome
oracle.  Returns the `(stdout, stderr, returncode)` triple together with
whether a subprocess was spawned.  The function is total: every branch,
including timeout and arbitrary exceptions, is converted to a triple. -/
def run_code (filePath : String) (subproc : SubprocOutcome) :
    (String × String × Int) × Bool :=
  if strEndsWith filePath ".py" then
    match subproc with
    | .completed out err code => ((out, err, code), true)
    | .timedOut => (("", "Execution timeout", 1), true)
    | .raised e => (("", e, 1), true)
  else (("", "Unsupported file type", 1), false)

/-! ## Auto-fix loop (`agent.py` lines 211-249) -/

/-- A flat filesystem: path to current content (reads of written files). -/
def FileSys := String → String

/-- `open(path, 'w').write(content)`. -/
def fsWrite (fs : FileSys) (path content : String) : FileSys :=
  fun p => if p = path then content else fs p

/-- Lines 233-237: extract the corrected code from the model response —
the chunk after the first ` ```python ` fence up to the next fence, else
the chunk after the first ` ``` ` fence, else the raw response. -/
def extractFixedCode (response : String) : String :=
  if containsSub response "```python" then
    pyStrip (((pySplit ((pySplit response "```python").getD 1 "") "```").getD 0 ""))
  else if containsSub response "```" then
    pyStrip (((pySplit ((pySplit response "```").getD 1 "") "```").getD 0 ""))
  else response

/-- Lines 225-244, the fix-application tail of one loop attempt: read the
file, obtain the model's fix, write the pre-fix content to
`<file>.backup`, then overwrite the file with the extracted fix. -/
def fixAttempt (fs : FileSys) (filePath llmResponse : String) : FileSys :=
  let content := fs filePath
  let fixed := extractFixedCode llmResponse
  let fs1 := fsWrite fs (filePath ++ ".backup") content
  fsWrite fs1 filePath fixed

/-- `fix_errors_loop` (lines 211-249), parameterised by per-attempt oracles
for the subprocess outcome and the model's fix response.  `attempt` is the
1-based attempt counter, `remaining` the attempts left (initially
`max_retries = 3`).  Returns the final filesystem and the boolean result. -/
def fix_errors_loop (filePath : String) (oracleRun : Nat → SubprocOutcome)
    (oracleLLM : Nat → String) : Nat → Nat → FileSys → FileSys × Bool
  | _, 0, fs => (fs, false)
  | attempt, remaining + 1, fs =>
    let r := (run_code filePath (oracleRun attempt)).1
    if r.2.2 = 0 then (fs, true)
    else
      fix_errors_loop filePath oracleRun oracleLLM (attempt + 1) remaining
        (fixAttempt fs filePath (oracleLLM attempt))

/-! ## Session driver (`agent.py` lines 477-580) -/

/-- The action the driver body takes for one line of input, mirroring the
dispatch order of `run` (lines 495-571): empty input is skipped; the exit
words, `help`, `tools`, `clear` are handled locally; then the
numbered-option substitution applies and the resulting text is checked for
a `!` direct command, the `my`+`repo`+`list` shortcut, the
`push`+`folder` shortcut, and finally the agent invocation. -/
inductive DriverAction where
  | skipInput
  | exitSession
  | showHelp
  | showTools
  | clearHistory
  | directCommand (cmd : String)
  | listRepos
  | pushFolder (folderPath : String)
  | invokeAgent (text : String)
deriving DecidableEq, Repr

/-- `['exit', 'quit', 'q']` (line 499). -/
def exitWords : List String := ["exit", "quit", "q"]

/-- The dispatch performed by one iteration of `run` on a line of input
(lines 495-571), parameterised by the current working directory (used by
the `push`+`folder` branch, lines 536-562: the folder path is
`os.getcwd()` joined with `'codeAssistent'` when the input mentions
`codeassistent`, else `os.getcwd()` itself). -/
def dispatch (cwd : String) (opts : List (String × String)) (rawInput : String) :
    DriverAction :=
  if pyStrip rawInput = "" then .skipInput
  else if exitWords.contains (pyLower rawInput) then .exitSession
  else if pyLower rawInput = "help" then .showHelp
  else if pyLower rawInput = "tools" then .showTools
  else if pyLower rawInput = "clear" then .clearHistory
  else
    let input := resolveInput opts rawInput
    if strStartsWith input "!" then .directCommand (pyDrop input 1)
    else if containsSub (pyLower input) "my" && containsSub (pyLower input) "repo" &&
        containsSub (pyLower input) "list" then .listRepos
    else if containsSub (pyLower input) "push" && containsSub (pyLower input) "folder" then
      let folderName :=
        if containsSub (pyLower input) "codeassistent" then "codeAssistent" else "."
      let folderPath := if folderName ≠ "." then joinPath cwd folderName else cwd
      .pushFolder folderPath
    else .invokeAgent input

/-- Python exceptions reaching the driver's `except` clauses:
`KeyboardInterrupt` or any other exception with its message. -/
inductive PyExc where
  | keyboardInterrupt
  | exc (msg : String)
deriving DecidableEq, Repr

/-- What one iteration of the `while True` loop does to the session:
`brk` leaves the loop (session ends), `cont` proceeds to the next input. -/
inductive LoopSignal where
  | brk
  | cont
deriving DecidableEq, Repr

/-- Outcome oracles for the effectful branches of one driver iteration:
the agent invocation (line 568), a `!` direct command (line 526), the
repo-list shortcut (line 533) and the push-folder shortcut (line 549).
Each may raise. -/
structure TurnEffects where
  runAgent : String → Except PyExc Unit
  runDirect : String → Except PyExc Unit
  runListRepos : Except PyExc Unit
  runPushFolder : String → Except PyExc Unit

/-- One line of input as acquired by `Prompt.ask`: a line, or an
`EOFError`/`KeyboardInterrupt` during input (caught by the inner
`try` at lines 485-492, which breaks the loop). -/
inductive PyEvent where
  | line (s : String)
  | eofOrInterrupt
deriving DecidableEq, Repr

/-- The body of the driver's outer `try` (lines 482-571): everything up to
the two `except` clauses.  `Except.error` models an exception escaping the
body. -/
def tryBody (eff : TurnEffects) (cwd : String) (opts : List (String × String))
    (ev : PyEvent) : Except PyExc LoopSignal :=
  match ev with
  | .eofOrInterrupt => .ok .brk
  | .line s =>
    match dispatch cwd opts s with
    | .skipInput => .ok .cont
    | .exitSession => .ok .brk
    | .showHelp => .ok .cont
    | .showTools => .ok .cont
    | .clearHistory => .ok .cont
    | .directCommand c => (eff.runDirect c).map (fun _ => .cont)
    | .listRepos => eff.runListRepos.map (fun _ => .cont)
    | .pushFolder p => (eff.runPushFolder p).map (fun _ => .cont)
    | .invokeAgent t => (eff.runAgent t).map (fun _ => .cont)

/-- One full iteration of `while True` (lines 481-580) including the
`except KeyboardInterrupt: break` and `except Exception: ...` (report and
fall through to the next iteration) clauses (lines 573-580). -/
def runIteration (eff : TurnEffects) (cwd : String) (opts : List (String × String))
    (ev : PyEvent) : LoopSignal :=
  match tryBody eff cwd opts ev with
  | .ok sig => sig
  | .error .keyboardInterrupt => .brk
  | .error (.exc _) => .cont

/-! ## Helper lemmas -/

/-- The call identifier of the tool-result produced for a call is the
call's own identifier, in every branch of `execToolCall`. -/
theorem execToolCall_callId (tools : List RegisteredTool) (tc : ToolCall) :
    msgToolCallId (execToolCall tools tc).1 = some tc.id := by
  rcases hf : findTool tools tc.name with _ | t
  · simp [execToolCall, hf, msgToolCallId]
  · rcases hr : t.invokeFn tc.args with r | e
    · simp [execToolCall, hf, hr, msgToolCallId]
    · simp [execToolCall, hf, hr, msgToolCallId]

/-- `forceToolDirective` acts on the last element of a non-empty list:
when its content matches a publishing keyword it is replaced by a
`HumanMessage` carrying the directive, otherwise the list is unchanged. -/
theorem forceToolDirective_concat (init : List Message) (m : Message) :
    forceToolDirective (init ++ [m]) =
      if kwCheck (msgContent m) then init ++ [Message.human (msgContent m ++ directive)]
      else init ++ [m] := by
  simp only [forceToolDirective, List.getLast?_concat, List.dropLast_concat]

/-- On a list that is neither empty nor a singleton, `insertSystem` yields
a list headed by the system message with a non-empty tail. -/
theorem insertSystem_shape (l : List Message) (h1 : l.length ≠ 1) (h0 : l ≠ []) :
    ∃ rest, insertSystem l = systemMessage :: rest ∧ rest ≠ [] := by
  match l with
  | [] => exact absurd rfl h0
  | [a] => simp at h1
  | a :: b :: rest =>
    unfold insertSystem
    rw [if_neg h1]
    cases a with
    | system c => exact ⟨b :: rest, rfl, by simp⟩
    | human c => exact ⟨Message.human c :: b :: rest, rfl, by simp⟩
    | ai c tcs => exact ⟨Message.ai c tcs :: b :: rest, rfl, by simp⟩
    | tool c i => exact ⟨Message.tool c i :: b :: rest, rfl, by simp⟩

/-! ## Claim theorems -/

/-- C1: for an assistant message carrying `N` pending tool calls,
`tool_use` appends exactly `N` tool-result messages, one per call, in the
same order, and the i-th result's call identifier equals the i-th call's
identifier — for every registry, so regardless of whether each invocation
succeeds (`Except.ok`), raises (`Except.error`) or names an unregistered
tool (`findTool` = `none`). -/
theorem tool_use_matches_calls (tools : List RegisteredTool) (calls : List ToolCall) :
    (tool_use tools calls).length = calls.length ∧
    (tool_use tools calls).map msgToolCallId = calls.map (fun tc => some tc.id) := by
  constructor
  · simp [tool_use]
  · simp only [tool_use, List.map_map, Function.comp]
    exact List.map_congr_left (fun tc _ => execToolCall_callId tools tc)

/-- C3: a tool call to an unregistered name yields the fixed not-found
message with no tool invoked (empty invocation trace); an invocation that
raises is converted to an error-content tool-result and never propagates
(the function returns a message, not an exception). -/
theorem tool_use_error_conversion (tools : List RegisteredTool) (tc : ToolCall) :
    (findTool tools tc.name = none →
      execToolCall tools tc = (Message.tool ("Tool " ++ tc.name ++ " not found") tc.id, [])) ∧
    (∀ t e, findTool tools tc.name = some t → t.invokeFn tc.args = Except.error e →
      execToolCall tools tc = (Message.tool ("Tool error: " ++ e) tc.id, [tc.name])) := by
  constructor
  · intro h
    simp only [execToolCall, h]
  · intro t e h1 h2
    simp only [execToolCall, h1, h2]

/-- Demonstration registry for the error-handling witness: one tool whose
invocation always raises. -/
def boomTool : RegisteredTool := ⟨"boom", fun _ => Except.error "kaput"⟩

/-- Demonstration registry holding only `boomTool`. -/
def demoTools : List RegisteredTool := [boomTool]

/-- Witness for C3 at a concrete registry: an unknown name produces the
not-found message without invocation, and a raising tool produces the
error-content message. -/
theorem tool_use_error_conversion_witness :
    execToolCall demoTools ⟨"a", "missing", []⟩ =
      (Message.tool "Tool missing not found" "a", []) ∧
    execToolCall demoTools ⟨"b", "boom", []⟩ =
      (Message.tool "Tool error: kaput" "b", ["boom"]) :=
  ⟨(tool_use_error_conversion demoTools ⟨"a", "missing", []⟩).1 rfl,
   (tool_use_error_conversion demoTools ⟨"b", "boom", []⟩).2 boomTool "kaput" rfl rfl⟩

/-- C2: a log longer than 10 messages is trimmed to exactly its last 10
messages before model invocation, and the full preparation pipeline places
the system message at position 0 of the list sent to the model. -/
theorem model_response_window_and_system (msgs : List Message) (h : msgs.length > 10) :
    trimMessages msgs = msgs.drop (msgs.length - 10) ∧
    (trimMessages msgs).length = 10 ∧
    (prepareMessages msgs).head? = some systemMessage := by
  have heq : trimMessages msgs = msgs.drop (msgs.length - 10) := by
    rw [trimMessages, if_pos h]
  have hlen : (trimMessages msgs).length = 10 := by
    rw [heq, List.length_drop]
    omega
  refine ⟨heq, hlen, ?_⟩
  obtain ⟨rest, hrest, hne⟩ :=
    insertSystem_shape (trimMessages msgs) (by omega) (by
      intro he
      rw [he] at hlen
      simp at hlen)
  rw [prepareMessages, hrest]
  rcases List.eq_nil_or_concat rest with hnil | ⟨init, m, hm⟩
  · exact absurd hnil hne
  · rw [hm, List.concat_eq_append, ← List.cons_append, forceToolDirective_concat]
    split <;> simp

/-- Concrete 11-message log for the C2 witness. -/
def c2Msgs : List Message :=
  [Message.human "m0", Message.ai "m1" [], Message.human "m2", Message.ai "m3" [],
   Message.human "m4", Message.ai "m5" [], Message.human "m6", Message.ai "m7" [],
   Message.human "m8", Message.ai "m9" [], Message.human "m10"]

/-- Witness for C2 on a concrete 11-message log. -/
theorem model_response_window_and_system_witness :
    c2Msgs.length > 10 ∧
    (trimMessages c2Msgs = c2Msgs.drop (c2Msgs.length - 10) ∧
     (trimMessages c2Msgs).length = 10 ∧
     (prepareMessages c2Msgs).head? = some systemMessage) :=
  ⟨by decide, model_response_window_and_system c2Msgs (by decide)⟩

/-- C4 (code defect evidence): the source's bullet character class does
not contain `•` (U+2022) — it contains the three mojibake characters
U+201A, U+00C4, U+00A2 instead — so a `•`-bulleted line is left unchanged
and records no option, while a `-` bullet on the same input is renumbered
and recorded as usual.  The source's own comment ("Find bullet points
(• or -)", itself mojibaked the same way) and the numbering intent say
`•` lines should be rewritten. -/
theorem format_with_numbers_mojibake_bug :
    bulletChars.contains '•' = false ∧
    matchBullet "• alpha" = none ∧
    formatWithNumbers "• alpha\n- beta" =
      ("• alpha\n**1.** beta\n\n*Tip: Type a number (1-1) to select an option*",
       [("1", "beta")]) := by
  refine ⟨by decide, by decide, by decide⟩

/-- C5: an exception escaping the body of one driver-loop iteration, other
than a keyboard interrupt, always results in the iteration signalling
`cont` (the session accepts the next input); and the session breaks only
through a deliberate exit (`ok brk`: exit word or input-time EOF/interrupt)
or a keyboard interrupt — never through a turn's failure. -/
theorem run_loop_error_containment (eff : TurnEffects) (cwd : String)
    (opts : List (String × String)) (ev : PyEvent) (m : String) :
    (tryBody eff cwd opts ev = Except.error (PyExc.exc m) →
      runIteration eff cwd opts ev = LoopSignal.cont) ∧
    (runIteration eff cwd opts ev = LoopSignal.brk →
      tryBody eff cwd opts ev = Except.ok LoopSignal.brk ∨
      tryBody eff cwd opts ev = Except.error PyExc.keyboardInterrupt) := by
  constructor
  · intro h
    unfold runIteration
    rw [h]
  · intro h
    unfold runIteration at h
    rcases htb : tryBody eff cwd opts ev with e | sig
    · cases e with
      | keyboardInterrupt => exact Or.inr rfl
      | exc msg =>
        rw [htb] at h
        exact absurd h (by simp)
    · rw [htb] at h
      cases sig with
      | brk => exact Or.inl rfl
      | cont => exact absurd h (by simp)

/-- Effects oracle for the C5 witness: the agent invocation raises a plain
exception; everything else succeeds. -/
def demoEffects : TurnEffects :=
  ⟨fun _ => Except.error (PyExc.exc "boom"), fun _ => Except.ok (),
   Except.ok (), fun _ => Except.ok ()⟩

/-- Witness for C5: a turn whose agent invocation raises still yields a
`cont` iteration. -/
theorem run_loop_error_containment_witness :
    tryBody demoEffects "/w" [] (PyEvent.line "hello") =
      Except.error (PyExc.exc "boom") ∧
    runIteration demoEffects "/w" [] (PyEvent.line "hello") = LoopSignal.cont :=
  ⟨rfl, (run_loop_error_containment demoEffects "/w" [] (PyEvent.line "hello") "boom").1 rfl⟩

/-- C6 counterexample: consuming an option does not remove its mapping.
Starting from the quick-start map, typing `1` substitutes the mapped text
and leaves the map identical, and consuming `1` again from the resulting
map succeeds with the same substitution — the claim that a consumed
mapping "cannot be consumed again" is false on the code. -/
theorem last_options_reconsumed_cex :
    consumeOption quickStartOptions "1" =
      some ("List all files in current directory", quickStartOptions) ∧
    ((consumeOption quickStartOptions "1").bind fun p => consumeOption p.2 "1") =
      some ("List all files in current directory", quickStartOptions) := by
  refine ⟨by decide, by decide⟩

/-- C6 amended: the `last_options` map is rebuilt from empty — fully
replacing, and independent of, the prior map — on every assistant response
with non-empty content; but consumption never removes an entry: the map
after a successful substitution equals the map before it. -/
theorem last_options_lifecycle (opts opts' res : List (String × String))
    (content input v : String) :
    (content ≠ "" → emitResponse opts content = emitResponse opts' content) ∧
    (consumeOption opts input = some (v, res) → res = opts) := by
  constructor
  · intro h
    unfold emitResponse
    rw [if_neg h, if_neg h]
  · intro h
    simp only [consumeOption] at h
    split at h
    · split at h
      · rw [Option.some.injEq, Prod.mk.injEq] at h
        exact h.2.symm
      · exact absurd h (by simp)
    · exact absurd h (by simp)

/-- Witness for C6 amended, at a non-empty content and a concrete
successful consumption from the quick-start map. -/
theorem last_options_lifecycle_witness :
    emitResponse [("9", "stale")] "- alpha" = emitResponse [] "- alpha" ∧
    quickStartOptions = quickStartOptions :=
  ⟨(last_options_lifecycle [("9", "stale")] [] [] "- alpha" "x" "y").1 (by decide),
   (last_options_lifecycle quickStartOptions [] quickStartOptions "x" "1"
      "List all files in current directory").2 (by decide)⟩

/-- Concrete log for the C7 counterexample: the turn's only user message
contains no publishing keyword, but the log's last message is a tool
result whose content mentions github. -/
def c7Msgs : List Message :=
  [Message.human "hi", Message.ai "" [⟨"call1", "push_folder", []⟩],
   Message.tool "pushed to github" "call1"]

/-- C7 counterexample: the keyword check and rewrite act on the log's last
message regardless of its role.  Here the most recent user message ("hi")
contains none of the keywords, yet preparation rewrites the final message
— a tool result — into a `HumanMessage` carrying the forced-tool
directive, contradicting both directions of the claim. -/
theorem directive_rewrites_nonuser_cex :
    kwCheck "hi" = false ∧
    c7Msgs.getLast? = some (Message.tool "pushed to github" "call1") ∧
    prepareMessages c7Msgs =
      [systemMessage, Message.human "hi", Message.ai "" [⟨"call1", "push_folder", []⟩],
       Message.human ("pushed to github" ++ directive)] := by
  refine ⟨by decide, by decide, by decide⟩

/-- C7 amended: the rewrite targets the last message of the prepared list
whatever its role — it is replaced by a `HumanMessage` with the directive
appended exactly when its content contains a publishing keyword, and the
list is unchanged otherwise (earlier messages are never touched). -/
theorem directive_applies_to_last_message (init : List Message) (m : Message) :
    forceToolDirective (init ++ [m]) =
      if kwCheck (msgContent m) then init ++ [Message.human (msgContent m ++ directive)]
      else init ++ [m] :=
  forceToolDirective_concat init m

/-- C8 counterexample: an input containing `push` and `folder` that also
mentions `codeassistent` is dispatched to the push-folder tool with folder
path `cwd/codeAssistent`, not the current working directory itself. -/
theorem push_folder_path_cex :
    dispatch "/home/user" [] "push codeassistent folder" =
      DriverAction.pushFolder "/home/user/codeAssistent" ∧
    "/home/user/codeAssistent" ≠ "/home/user" := by
  refine ⟨by decide, by decide⟩

/-- C8 amended: an input containing `push` and `folder` (case-insensitive,
after the numbered-option substitution) that is not intercepted by an
earlier handler — non-blank, not an exit word, not `help`/`tools`/`clear`,
not a `!` direct command, not the `my`+`repo`+`list` shortcut — bypasses
the model (the dispatch is never `invokeAgent`) and invokes the
push-folder tool with folder path equal to the current working directory,
except that an input also containing `codeassistent` uses
`cwd/codeAssistent`. -/
theorem push_folder_dispatch_amended (cwd : String) (opts : List (String × String))
    (input : String)
    (h1 : pyStrip input ≠ "")
    (h2 : exitWords.contains (pyLower input) = false)
    (h3 : pyLower input ≠ "help")
    (h4 : pyLower input ≠ "tools")
    (h5 : pyLower input ≠ "clear")
    (h6 : strStartsWith (resolveInput opts input) "!" = false)
    (h7 : (containsSub (pyLower (resolveInput opts input)) "my" &&
           containsSub (pyLower (resolveInput opts input)) "repo" &&
           containsSub (pyLower (resolveInput opts input)) "list") = false)
    (h8 : containsSub (pyLower (resolveInput opts input)) "push" = true)
    (h9 : containsSub (pyLower (resolveInput opts input)) "folder" = true) :
    dispatch cwd opts input =
      DriverAction.pushFolder
        (if containsSub (pyLower (resolveInput opts input)) "codeassistent" then
          joinPath cwd "codeAssistent" else cwd) ∧
    ∀ t, dispatch cwd opts input ≠ DriverAction.invokeAgent t := by
  have hmain : dispatch cwd opts input =
      DriverAction.pushFolder
        (if containsSub (pyLower (resolveInput opts input)) "codeassistent" then
          joinPath cwd "codeAssistent" else cwd) := by
    simp only [dispatch, h1, h2, h3, h4, h5, h6, h7, h8, h9]
    by_cases hc : containsSub (pyLower (resolveInput opts input)) "codeassistent" = true <;>
      simp +decide [hc]
  refine ⟨hmain, ?_⟩
  intro t
  rw [hmain]
  simp

/-- Witness for C8 amended at the spec's scenario input: no earlier
handler matches, `codeassistent` does not occur, and the dispatch is the
push-folder tool at the current working directory. -/
theorem push_folder_dispatch_amended_witness :
    dispatch "/w" [] "push folder to github" = DriverAction.pushFolder "/w" := by
  have h := push_folder_dispatch_amended "/w" [] "push folder to github"
    (by decide) (by decide) (by decide) (by decide) (by decide) (by decide)
    (by decide) (by decide) (by decide)
  rw [h.1]
  decide

/-- C9: each applied fix of the auto-fix loop preserves the file's pre-fix
content on disk: after `fixAttempt`, the sibling `<file>.backup` holds
exactly the content the file had before the attempt, while the file itself
holds the extracted fix. -/
theorem fix_loop_backup_preserved (fs : FileSys) (filePath llmResponse : String) :
    fixAttempt fs filePath llmResponse (filePath ++ ".backup") = fs filePath ∧
    fixAttempt fs filePath llmResponse filePath = extractFixedCode llmResponse := by
  have hne : filePath ++ ".backup" ≠ filePath := by
    intro h
    have hlen := congrArg String.length h
    rw [String.length_append] at hlen
    have h7 : (".backup" : String).length = 7 := rfl
    omega
  constructor
  · simp [fixAttempt, fsWrite, hne]
  · simp [fixAttempt, fsWrite]

/-- C10: `run_code` is total and never raises — every branch returns a
triple.  A non-`.py` path yields the unsupported-file triple without
spawning a subprocess (`false` flag); a timeout yields the fixed timeout
triple; any other exception is converted to a triple embedding its
message; a completed run returns the captured streams and code. -/
theorem run_code_never_raises (filePath : String) (subproc : SubprocOutcome) :
    (strEndsWith filePath ".py" = false →
      run_code filePath subproc = (("", "Unsupported file type", 1), false)) ∧
    (strEndsWith filePath ".py" = true →
      run_code filePath SubprocOutcome.timedOut = (("", "Execution timeout", 1), true)) ∧
    (∀ e, strEndsWith filePath ".py" = true →
      run_code filePath (SubprocOutcome.raised e) = (("", e, 1), true)) ∧
    (∀ out err code, strEndsWith filePath ".py" = true →
      run_code filePath (SubprocOutcome.completed out err code) = ((out, err, code), true)) := by
  refine ⟨?_, ?_, ?_, ?_⟩ <;> intros <;> simp_all [run_code]

/-- Witness for C10 at concrete paths and subprocess outcomes. -/
theorem run_code_never_raises_witness :
    run_code "notes.txt" (SubprocOutcome.completed "o" "e" 0) =
      (("", "Unsupported file type", 1), false) ∧
    run_code "main.py" SubprocOutcome.timedOut = (("", "Execution timeout", 1), true) ∧
    run_code "main.py" (SubprocOutcome.raised "boom") = (("", "boom", 1), true) :=
  ⟨(run_code_never_raises "notes.txt" (SubprocOutcome.completed "o" "e" 0)).1 (by decide),
   (run_code_never_raises "main.py" SubprocOutcome.timedOut).2.1 (by decide),
   (run_code_never_raises "main.py" (SubprocOutcome.raised "boom")).2.2.1 "boom" (by decide)⟩
